import Mathlib

/-!
Shallow embedding of the configuration-lifecycle core of `napalm/eos.py`
(class `EOSDriver`): candidate staging, session-scoped test-apply, merge
commit, discard and rollback.  The external pyEOS device is modelled by a
behaviour record (`DeviceBehavior`) and every device interaction performed
by a driver method is recorded in an ordered trace of `DevCall`s.  Python
exceptions are modelled by an explicit outcome value (`Option PyErr`);
a raised exception leaves behind whatever state mutations had already
happened, exactly as in Python.
-/

namespace Napalm

/-- Value of the `self.candidate_configuration` attribute.  In the source it
is usually a Python list of strings, but on one failure path
(`_load_and_test_config` with `filename=None` and `config=None`) it is left
holding Python `None` when `None.split('\n')` raises. -/
inductive PyVal where
  | pyNone : PyVal
  | pyList : List String → PyVal
deriving DecidableEq, Repr

/-- Exceptions that the modelled methods can raise.  `attributeError` stands
for Python's untyped `AttributeError` (calling `.split` on `None`);
`commandError` is pyEOS `CommandError` with the device's message;
`mergeConfigException` / `replaceConfigException` are the driver's own
exception types from `exceptions.py`. -/
inductive PyErr where
  | attributeError : PyErr
  | commandError : String → PyErr
  | mergeConfigException : String → PyErr
  | replaceConfigException : String → PyErr
deriving DecidableEq, Repr

/-- One call made to the pyEOS device object, in the order issued. -/
inductive DevCall where
  | runCommands : List String → DevCall
  | loadCandidateConfig : Option String → Option String → DevCall
  | getConfig : String → DevCall
  | replaceConfig : DevCall
deriving DecidableEq, Repr

/-- Behaviour of the external device: whether a batch of commands is
accepted (`.ok`) or rejected with a diagnostic message (`.error msg`,
modelling pyEOS raising `CommandError`), whether `replace_config` succeeds,
and the text returned by `get_config(format='text')`. -/
structure DeviceBehavior where
  runResult : List String → Except String Unit
  replaceResult : Except String Unit
  runningConfig : String

/-- Driver-local state: the three mutable attributes set in
`EOSDriver.__init__` that the configuration lifecycle uses. -/
structure EOSDriver where
  config_replace : Bool
  candidate_configuration : PyVal
  config_session : Option String
deriving DecidableEq, Repr

/-- State after `__init__`: `config_replace = False`,
`candidate_configuration = list()`, `config_session = None`. -/
def initialDriver : EOSDriver :=
  { config_replace := false
    candidate_configuration := .pyList []
    config_session := none }

/-- Python `'%s' % x` where `x` is an optional string attribute: `None`
renders as the four-character string "None". -/
def formatS : Option String → String
  | some s => s
  | none => "None"

/-- Structural implementation of Python `text.split('\n')` on the
character list: cut at every newline, keeping empty pieces (so "a\n"
yields ["a", ""]).  `acc` holds the characters of the current piece in
reverse. -/
def splitNl (cs : List Char) (acc : List Char) : List String :=
  match cs with
  | [] => [String.mk acc.reverse]
  | c :: rest =>
    if c = '\n' then String.mk acc.reverse :: splitNl rest []
    else splitNl rest (c :: acc)

/-- Python `line.strip()`: drop whitespace from both ends.  (Lean's
`Char.isWhitespace` covers space, tab, CR and LF — the characters that
matter for configuration text.) -/
def pyStrip (s : String) : String :=
  String.mk (((s.data.dropWhile Char.isWhitespace).reverse.dropWhile
    Char.isWhitespace).reverse)

/-- The blank-line cleaning loop of `_load_and_test_config` (lines 52-60):
split the raw text on newlines and keep only the lines whose
whitespace-strip is non-empty. -/
def cleanLines (text : String) : List String :=
  (splitNl text.data []).filter (fun line => ¬ pyStrip line = "")

/-- The conditional `if 'end' in cfg: cfg.remove('end')` used at lines 63-64
and 104-105: Python `list.remove` deletes the first occurrence only. -/
def stripFirstEnd (l : List String) : List String :=
  if "end" ∈ l then l.erase "end" else l

/-- Session name generated at line 70.  The argument stands for the string
`datetime.now().strftime('%Y%m%d-%H%m%s')`, i.e. the rendering of the wall
clock at the moment of the call; the name is that rendering with the fixed
prefix attached. -/
def sessionName (now : String) : String := "napalm_commit_" ++ now

/-- Command batch sent by the merge (overwrite=False) branch of
`_load_and_test_config`: the cleaned candidate with its first literal
"end" line removed, the session-open directive prepended and "end"
appended. -/
def mergeTestCommands (name : String) (clean : List String) : List String :=
  ("configure session " ++ name) :: (stripFirstEnd clean ++ ["end"])

/-- Command batch sent by the overwrite=True branch of
`_load_and_test_config`: an ephemeral session named "test", aborted at the
end. -/
def replaceTestCommands (clean : List String) : List String :=
  "configure session test" :: (stripFirstEnd clean ++ ["abort"])

/-- Command batch built in place by `_commit_merge` (lines 102-106): insert
the snapshot command at position 0, insert the session-open directive at
position 0, remove the first "end" line from the whole list, append
"commit".  `sess` is `self.config_session`, rendered with `%s`. -/
def commitMergeCommands (sess : Option String) (cand : List String) : List String :=
  stripFirstEnd (("configure session " ++ formatS sess) ::
    "copy startup-config flash:rollback-0" :: cand) ++ ["commit"]

/-- Result of a driver method: the exception raised (if any), the driver
state afterwards (Python mutations survive a raise), and the ordered trace
of device calls issued, rejected calls included. -/
abbrev MethodResult : Type := Option PyErr × EOSDriver × List DevCall

/-- Embedding of `EOSDriver._load_and_test_config(filename, config,
overwrite)`.  `fs` maps a file path to its contents (file reads are assumed
to succeed; no claim exercises a missing file) and `now` is the current
clock rendering used for the session name.  When both `filename` and
`config` are `None`, the attribute `candidate_configuration` has been
assigned `None` (line 47) and `None.split('\n')` (line 52) raises
`AttributeError` before any device interaction. -/
def load_and_test_config (dev : DeviceBehavior) (fs : String → String)
    (now : String) (filename config : Option String) (overwrite : Bool)
    (s : EOSDriver) : MethodResult :=
  let raw : Option String :=
    match filename with
    | some f => some (fs f)
    | none => config
  match raw with
  | none => (some .attributeError, { s with candidate_configuration := .pyNone }, [])
  | some text =>
    let clean := cleanLines text
    if overwrite then
      let cmds := replaceTestCommands clean
      let s1 : EOSDriver := { s with candidate_configuration := .pyList clean }
      match dev.runResult cmds with
      | .ok _ => (none, s1, [.runCommands cmds])
      | .error m => (some (.commandError m), s1, [.runCommands cmds])
    else
      let name := sessionName now
      let cmds := mergeTestCommands name clean
      let s1 : EOSDriver :=
        { s with candidate_configuration := .pyList clean, config_session := some name }
      match dev.runResult cmds with
      | .ok _ => (none, s1, [.runCommands cmds])
      | .error m => (some (.commandError m), s1, [.runCommands cmds])

/-- Embedding of `EOSDriver.load_replace_candidate`: set
`config_replace = True` and hand the raw source straight to the device's
own `load_candidate_config`; the driver-local candidate list is not
touched and no cleaning happens in this layer. -/
def load_replace_candidate (filename config : Option String)
    (s : EOSDriver) : EOSDriver × List DevCall :=
  ({ s with config_replace := true }, [.loadCandidateConfig filename config])

/-- Embedding of `EOSDriver.discard_config`: when a session identifier is
present, send the abort batch for it and clear it (the clear at line 120 is
only reached if the batch was accepted); in every non-raising path, read
the running configuration back as text and load it as the device-side
candidate. -/
def discard_config (dev : DeviceBehavior) (s : EOSDriver) : MethodResult :=
  match s.config_session with
  | some name =>
    let cmds := ["configure session " ++ name, "abort"]
    match dev.runResult cmds with
    | .error m => (some (.commandError m), s, [.runCommands cmds])
    | .ok _ =>
      (none, { s with config_session := none },
        [.runCommands cmds, .getConfig "text",
          .loadCandidateConfig none (some dev.runningConfig)])
  | none =>
    (none, s,
      [.getConfig "text", .loadCandidateConfig none (some dev.runningConfig)])

/-- Embedding of `EOSDriver.load_merge_candidate`: run the merge-mode
test-apply, and only on success set `config_replace = False`.  A pyEOS
`CommandError` is caught, `discard_config` runs (its own calls extend the
trace), and the error is re-raised as `MergeConfigException` with the
device's message; an exception raised inside the handler would itself
propagate.  `AttributeError` is not caught and propagates untyped. -/
def load_merge_candidate (dev : DeviceBehavior) (fs : String → String)
    (now : String) (filename config : Option String)
    (s : EOSDriver) : MethodResult :=
  match load_and_test_config dev fs now filename config false s with
  | (none, s1, tr) => (none, { s1 with config_replace := false }, tr)
  | (some (.commandError m), s1, tr) =>
    match discard_config dev s1 with
    | (none, s2, tr2) => (some (.mergeConfigException m), s2, tr ++ tr2)
    | (some e, s2, tr2) => (some e, s2, tr ++ tr2)
  | (some e, s1, tr) => (some e, s1, tr)

/-- Embedding of `EOSDriver._commit_replace`: call the device's
`replace_config`, re-raising `ConfigReplaceError` as
`ReplaceConfigException`. -/
def commit_replace (dev : DeviceBehavior) (s : EOSDriver) : MethodResult :=
  match dev.replaceResult with
  | .ok _ => (none, s, [.replaceConfig])
  | .error m => (some (.replaceConfigException m), s, [.replaceConfig])

/-- Embedding of `EOSDriver._commit_merge`: the wrapper directives are
inserted into `self.candidate_configuration` in place, so the attribute
holds the full command batch afterwards, whether or not the device accepted
it.  If the attribute were Python `None`, `None.insert` would raise before
any device call. -/
def commit_merge (dev : DeviceBehavior) (s : EOSDriver) : MethodResult :=
  match s.candidate_configuration with
  | .pyNone => (some .attributeError, s, [])
  | .pyList cand =>
    let cmds := commitMergeCommands s.config_session cand
    let s1 : EOSDriver := { s with candidate_configuration := .pyList cmds }
    match dev.runResult cmds with
    | .ok _ => (none, s1, [.runCommands cmds])
    | .error m => (some (.commandError m), s1, [.runCommands cmds])

/-- Embedding of `EOSDriver.commit_config`: dispatch on `config_replace`,
then (when the chosen commit path did not raise) persist with
`write memory`. -/
def commit_config (dev : DeviceBehavior) (s : EOSDriver) : MethodResult :=
  let step : MethodResult :=
    if s.config_replace then commit_replace dev s else commit_merge dev s
  match step with
  | (none, s1, tr) =>
    match dev.runResult ["write memory"] with
    | .ok _ => (none, s1, tr ++ [.runCommands ["write memory"]])
    | .error m =>
      (some (.commandError m), s1, tr ++ [.runCommands ["write memory"]])
  | err => err

/-- Embedding of `EOSDriver.rollback`: replay the snapshot slot, persist,
then reload the device-side candidate from the running configuration.  No
driver-local attribute is assigned anywhere in the method. -/
def rollback (dev : DeviceBehavior) (s : EOSDriver) : MethodResult :=
  match dev.runResult ["configure replace flash:rollback-0"] with
  | .error m =>
    (some (.commandError m), s, [.runCommands ["configure replace flash:rollback-0"]])
  | .ok _ =>
    match dev.runResult ["write memory"] with
    | .error m =>
      (some (.commandError m), s,
        [.runCommands ["configure replace flash:rollback-0"],
          .runCommands ["write memory"]])
    | .ok _ =>
      (none, s,
        [.runCommands ["configure replace flash:rollback-0"],
          .runCommands ["write memory"], .getConfig "text",
          .loadCandidateConfig none (some dev.runningConfig)])

/-- A device that accepts every command batch; used to instantiate
happy-path hypotheses. -/
def okDev : DeviceBehavior :=
  { runResult := fun _ => .ok ()
    replaceResult := .ok ()
    runningConfig := "hostname sw1" }

/-- A device that rejects every batch not containing "abort" with the
message "bad command"; it lets the session-abort batch of
`discard_config` through, so the failure-recovery path can complete. -/
def rejDev : DeviceBehavior :=
  { runResult := fun cmds => if "abort" ∈ cmds then .ok () else .error "bad command"
    replaceResult := .ok ()
    runningConfig := "hostname sw1" }

/-- A trivial file system for concrete runs (no claim reads a file). -/
def fs0 : String → String := fun _ => ""

/-- A driver state as left by a successful merge staging: merge mode, a
one-line cleaned candidate, an open session named "s1". -/
def stagedMergeState : EOSDriver :=
  { config_replace := false
    candidate_configuration := .pyList ["hostname foo"]
    config_session := some "s1" }

/-- The session-open directive can never be the literal line "end": it
always carries the 18-character prefix "configure session ". -/
theorem configure_session_ne_end (x : String) :
    ¬ ("configure session " ++ x) = "end" := by
  intro h
  have hlen := congrArg String.length h
  rw [String.length_append] at hlen
  have h1 : "configure session ".length = 18 := rfl
  have h2 : "end".length = 3 := rfl
  omega

/-- `stripFirstEnd` removes exactly the first "end" line: splitting the
list at that first occurrence, the result is the concatenation of the two
halves. -/
theorem stripFirstEnd_split (l1 l2 : List String) (h : "end" ∉ l1) :
    stripFirstEnd (l1 ++ "end" :: l2) = l1 ++ l2 := by
  have hmem : "end" ∈ l1 ++ "end" :: l2 :=
    List.mem_append_right l1 (List.mem_cons_self _ _)
  rw [stripFirstEnd, if_pos hmem, List.erase_append_right _ h, List.erase_cons_head]

/-- `stripFirstEnd` passes over a head line that is not "end". -/
theorem stripFirstEnd_cons_ne (a : String) (l : List String) (h : ¬ a = "end") :
    stripFirstEnd (a :: l) = a :: stripFirstEnd l := by
  by_cases hmem : "end" ∈ l
  · have hmem2 : "end" ∈ a :: l := List.mem_cons_of_mem a hmem
    rw [stripFirstEnd, if_pos hmem2, stripFirstEnd, if_pos hmem,
      List.erase_cons_tail (by simpa using fun hc => h hc)]
  · have hmem2 : "end" ∉ a :: l := by
      intro hc
      rcases List.mem_cons.mp hc with hc | hc
      · exact h hc.symm
      · exact hmem hc
    rw [stripFirstEnd, if_neg hmem2, stripFirstEnd, if_neg hmem]

/-- The two wrapper directives inserted by `_commit_merge` are never the
line "end", so the first-"end" removal at lines 104-105 only ever deletes
a line of the candidate body. -/
theorem commitMergeCommands_eq (sess : Option String) (cand : List String) :
    commitMergeCommands sess cand =
      ("configure session " ++ formatS sess) ::
        "copy startup-config flash:rollback-0" ::
          (stripFirstEnd cand ++ ["commit"]) := by
  rw [commitMergeCommands, stripFirstEnd_cons_ne _ _ (configure_session_ne_end _),
    stripFirstEnd_cons_ne _ _ (by decide)]
  simp

/-- C1: contrary to the claim, `commit_config` on the pristine driver state
(empty candidate list, merge mode, no session) raises nothing and does send
commands: the merge wrapper batch — whose first command interpolates Python
`None` into "configure session None" — followed by "write memory". -/
theorem commit_config_empty_store_behavior :
    commit_config okDev initialDriver =
      (none,
        { config_replace := false
          candidate_configuration := .pyList
            ["configure session None", "copy startup-config flash:rollback-0",
             "commit"]
          config_session := none },
        [.runCommands
          ["configure session None", "copy startup-config flash:rollback-0",
           "commit"],
         .runCommands ["write memory"]]) := rfl

/-- C4 counterexample: `load_replace_candidate` on inline text containing a
blank line leaves the driver's `candidate_configuration` untouched (still
the empty list) and forwards the raw, uncleaned text to the device; in
particular the store does not hold the blank-stripped lines. -/
theorem load_replace_candidate_raw_cex :
    load_replace_candidate none (some "interface Ethernet1\n\nno shutdown")
        initialDriver =
      ({ config_replace := true
         candidate_configuration := .pyList []
         config_session := none },
        [.loadCandidateConfig none (some "interface Ethernet1\n\nno shutdown")]) ∧
    ¬ (load_replace_candidate none (some "interface Ethernet1\n\nno shutdown")
        initialDriver).1.candidate_configuration =
      .pyList (cleanLines "interface Ethernet1\n\nno shutdown") := by decide

/-- C4 amended: for every source, `load_replace_candidate` only sets
`config_replace := true` and hands the source verbatim to the device's
`load_candidate_config`; it performs no blank-line stripping and never
writes the driver-local candidate list. -/
theorem load_replace_candidate_behavior (filename config : Option String)
    (s : EOSDriver) :
    load_replace_candidate filename config s =
      ({ s with config_replace := true },
        [.loadCandidateConfig filename config]) := rfl

/-- C9: `load_merge_candidate` with neither a filename nor inline config
raises the untyped `AttributeError` from `None.split`, not a
`MergeConfigException`, and issues no device call; the candidate attribute
is left holding Python `None`. -/
theorem load_merge_no_source_behavior (dev : DeviceBehavior)
    (fs : String → String) (now : String) (s : EOSDriver) :
    load_merge_candidate dev fs now none none s =
      (some .attributeError, { s with candidate_configuration := .pyNone }, []) ∧
    ∀ msg, ¬ (load_merge_candidate dev fs now none none s).1 =
      some (.mergeConfigException msg) := by
  refine ⟨rfl, fun msg hcontra => ?_⟩
  have h1 : (load_merge_candidate dev fs now none none s).1 =
      some .attributeError := rfl
  rw [h1] at hcontra
  simp at hcontra

/-- C2 counterexample: a successful merge-mode `commit_config` on a staged
state leaves the session identifier set and the candidate list non-empty
(it now holds the wrapper command batch), so neither part of the store is
cleared. -/
theorem commit_retains_state_cex :
    (commit_config okDev stagedMergeState).1 = none ∧
    ¬ (commit_config okDev stagedMergeState).2.1.candidate_configuration =
      .pyList [] ∧
    ¬ (commit_config okDev stagedMergeState).2.1.config_session = none ∧
    ¬ (discard_config okDev stagedMergeState).2.1.candidate_configuration =
      .pyList [] := by decide

/-- C2 amended: a successful merge-mode `commit_config` leaves
`config_session` unchanged and `candidate_configuration` holding the
in-place-built wrapper batch (nothing is cleared); `discard_config` clears
`config_session` but leaves `candidate_configuration` untouched — the
post-discard reload only replaces the device-side candidate. -/
theorem commit_and_discard_cleanup_behavior (dev : DeviceBehavior)
    (s : EOSDriver) (l : List String)
    (hok : ∀ cmds, dev.runResult cmds = .ok ())
    (hrep : s.config_replace = false)
    (hcand : s.candidate_configuration = .pyList l) :
    (commit_config dev s).1 = none ∧
    (commit_config dev s).2.1.config_session = s.config_session ∧
    (commit_config dev s).2.1.candidate_configuration =
      .pyList (commitMergeCommands s.config_session l) ∧
    (discard_config dev s).2.1.candidate_configuration =
      s.candidate_configuration ∧
    (discard_config dev s).2.1.config_session = none := by
  refine ⟨?_, ?_, ?_, ?_, ?_⟩ <;>
    cases hs : s.config_session <;>
      simp [commit_config, commit_merge, discard_config, hrep, hcand, hok, hs]

/-- C2 witness: the amended behaviour evaluated on the concrete staged
merge state against an all-accepting device. -/
theorem commit_and_discard_cleanup_behavior_witness :
    (∀ cmds, okDev.runResult cmds = .ok ()) ∧
    stagedMergeState.config_replace = false ∧
    stagedMergeState.candidate_configuration = .pyList ["hostname foo"] ∧
    ((commit_config okDev stagedMergeState).1 = none ∧
      (commit_config okDev stagedMergeState).2.1.config_session =
        stagedMergeState.config_session ∧
      (commit_config okDev stagedMergeState).2.1.candidate_configuration =
        .pyList (commitMergeCommands stagedMergeState.config_session
          ["hostname foo"]) ∧
      (discard_config okDev stagedMergeState).2.1.candidate_configuration =
        stagedMergeState.candidate_configuration ∧
      (discard_config okDev stagedMergeState).2.1.config_session = none) :=
  ⟨fun _ => rfl, rfl, rfl,
    commit_and_discard_cleanup_behavior okDev stagedMergeState
      ["hostname foo"] (fun _ => rfl) rfl rfl⟩

/-- C3 counterexample: in the batch `_commit_merge` sends, the first
command is the session-open directive, not the snapshot-to-rollback-slot
command — the claimed order (snapshot first) is wrong. -/
theorem commit_merge_order_cex :
    (commit_merge okDev stagedMergeState).2.2 =
      [.runCommands
        ["configure session s1", "copy startup-config flash:rollback-0",
         "hostname foo", "commit"]] ∧
    ¬ "configure session s1" = "copy startup-config flash:rollback-0" := by
  decide

/-- C3 amended: `_commit_merge` sends one batch whose order is: the
session-open directive first, then the snapshot-to-rollback-slot command,
then the candidate with its first "end" line (if any) removed, and an
explicit "commit" directive appended as the final command. -/
theorem commit_merge_command_order (dev : DeviceBehavior) (s : EOSDriver)
    (l : List String) (hok : ∀ cmds, dev.runResult cmds = .ok ())
    (hcand : s.candidate_configuration = .pyList l) :
    commit_merge dev s =
      (none,
        { s with candidate_configuration :=
            .pyList (commitMergeCommands s.config_session l) },
        [.runCommands (commitMergeCommands s.config_session l)]) ∧
    commitMergeCommands s.config_session l =
      ("configure session " ++ formatS s.config_session) ::
        "copy startup-config flash:rollback-0" ::
          (stripFirstEnd l ++ ["commit"]) :=
  ⟨by simp [commit_merge, hcand, hok], commitMergeCommands_eq _ _⟩

/-- C3 witness: the amended command order evaluated on the concrete staged
merge state against an all-accepting device. -/
theorem commit_merge_command_order_witness :
    (∀ cmds, okDev.runResult cmds = .ok ()) ∧
    stagedMergeState.candidate_configuration = .pyList ["hostname foo"] ∧
    (commit_merge okDev stagedMergeState =
      (none,
        { stagedMergeState with candidate_configuration := PyVal.pyList (commitMergeCommands stagedMergeState.config_session ["hostname foo"]) },
        [.runCommands (commitMergeCommands stagedMergeState.config_session
          ["hostname foo"])]) ∧
      commitMergeCommands stagedMergeState.config_session ["hostname foo"] =
        ("configure session " ++ formatS stagedMergeState.config_session) ::
          "copy startup-config flash:rollback-0" ::
            (stripFirstEnd ["hostname foo"] ++ ["commit"])) :=
  ⟨fun _ => rfl, rfl,
    commit_merge_command_order okDev stagedMergeState ["hostname foo"]
      (fun _ => rfl) rfl⟩

/-- C5 counterexample: two back-to-back `load_merge_candidate` calls (no
commit or discard between them) each send exactly one batch — the new
session-open batch — and no "abort" command appears in either batch, so
the first session is never aborted before the second is opened. -/
theorem load_merge_twice_no_abort_cex :
    (load_merge_candidate okDev fs0 "T1" none (some "hostname a")
        initialDriver).2.2 =
      [.runCommands ["configure session napalm_commit_T1", "hostname a", "end"]] ∧
    (load_merge_candidate okDev fs0 "T2" none (some "hostname b")
        (load_merge_candidate okDev fs0 "T1" none (some "hostname a")
          initialDriver).2.1).2.2 =
      [.runCommands ["configure session napalm_commit_T2", "hostname b", "end"]] ∧
    ¬ "abort" ∈ ["configure session napalm_commit_T1", "hostname a", "end"] ∧
    ¬ "abort" ∈ ["configure session napalm_commit_T2", "hostname b", "end"] := by
  decide

/-- C5 amended: the second `load_merge_candidate` call simply overwrites
`config_session` with the name derived from the new clock rendering and
sends exactly one batch, the new session-open batch built from the second
candidate — no abort step for the first session exists; the two generated
names coincide exactly when the two clock renderings coincide. -/
theorem load_merge_twice_behavior (dev : DeviceBehavior)
    (fs : String → String) (now1 now2 text1 text2 : String) (s : EOSDriver)
    (hok : ∀ cmds, dev.runResult cmds = .ok ()) :
    (load_merge_candidate dev fs now1 none (some text1) s).2.1.config_session =
      some (sessionName now1) ∧
    (load_merge_candidate dev fs now2 none (some text2)
        (load_merge_candidate dev fs now1 none (some text1) s).2.1).2.2 =
      [.runCommands (mergeTestCommands (sessionName now2) (cleanLines text2))] ∧
    (load_merge_candidate dev fs now2 none (some text2)
        (load_merge_candidate dev fs now1 none (some text1) s).2.1).2.1.config_session =
      some (sessionName now2) ∧
    (sessionName now1 = sessionName now2 ↔ now1 = now2) := by
  refine ⟨?_, ?_, ?_, ?_, ?_⟩
  · simp [load_merge_candidate, load_and_test_config, hok]
  · simp [load_merge_candidate, load_and_test_config, hok]
  · simp [load_merge_candidate, load_and_test_config, hok]
  · intro h
    have hdata := congrArg String.data h
    rw [sessionName, sessionName, String.data_append, String.data_append] at hdata
    exact String.ext_iff.mpr (List.append_cancel_left hdata)
  · intro h
    rw [h]

/-- C5 witness: the amended two-call behaviour evaluated at two distinct
concrete clock renderings against an all-accepting device. -/
theorem load_merge_twice_behavior_witness :
    (∀ cmds, okDev.runResult cmds = .ok ()) ∧
    ((load_merge_candidate okDev fs0 "T1" none (some "hostname a")
        initialDriver).2.1.config_session = some (sessionName "T1") ∧
      (load_merge_candidate okDev fs0 "T2" none (some "hostname b")
          (load_merge_candidate okDev fs0 "T1" none (some "hostname a")
            initialDriver).2.1).2.2 =
        [.runCommands (mergeTestCommands (sessionName "T2")
          (cleanLines "hostname b"))] ∧
      (load_merge_candidate okDev fs0 "T2" none (some "hostname b")
          (load_merge_candidate okDev fs0 "T1" none (some "hostname a")
            initialDriver).2.1).2.1.config_session = some (sessionName "T2") ∧
      (sessionName "T1" = sessionName "T2" ↔ "T1" = "T2")) :=
  ⟨fun _ => rfl,
    load_merge_twice_behavior okDev fs0 "T1" "T2" "hostname a" "hostname b"
      initialDriver (fun _ => rfl)⟩

/-- C6 counterexample: when the device rejects the test batch, the raised
error is the right `MergeConfigException` with the device's message and
the partial session is aborted and cleared — but the driver's
`candidate_configuration` still holds the cleaned staged lines, not an
empty store. -/
theorem load_merge_reject_retains_candidate_cex :
    load_merge_candidate rejDev fs0 "T1" none (some "hostname foo")
        initialDriver =
      (some (.mergeConfigException "bad command"),
        { config_replace := false
          candidate_configuration := .pyList ["hostname foo"]
          config_session := none },
        [.runCommands ["configure session napalm_commit_T1", "hostname foo", "end"],
         .runCommands ["configure session napalm_commit_T1", "abort"],
         .getConfig "text",
         .loadCandidateConfig none (some "hostname sw1")]) ∧
    (load_merge_candidate rejDev fs0 "T1" none (some "hostname foo")
        initialDriver).2.1.candidate_configuration =
      .pyList (cleanLines "hostname foo") ∧
    ¬ (load_merge_candidate rejDev fs0 "T1" none (some "hostname foo")
        initialDriver).2.1.candidate_configuration = .pyList [] := by decide

/-- C6 amended: when the device rejects the merge test batch with message
`msg` (and accepts the abort batch), `load_merge_candidate` aborts the
partially-open session, clears `config_session`, reloads the device-side
candidate from the running configuration, and raises
`MergeConfigException msg` — but `candidate_configuration` keeps the
cleaned staged lines. -/
theorem load_merge_reject_behavior (dev : DeviceBehavior)
    (fs : String → String) (now text msg : String) (s : EOSDriver)
    (hrej : dev.runResult
      (mergeTestCommands (sessionName now) (cleanLines text)) = .error msg)
    (habort : dev.runResult
      ["configure session " ++ sessionName now, "abort"] = .ok ()) :
    load_merge_candidate dev fs now none (some text) s =
      (some (.mergeConfigException msg),
        { s with candidate_configuration := .pyList (cleanLines text),
                 config_session := none },
        [.runCommands (mergeTestCommands (sessionName now) (cleanLines text)),
         .runCommands ["configure session " ++ sessionName now, "abort"],
         .getConfig "text",
         .loadCandidateConfig none (some dev.runningConfig)]) := by
  simp [load_merge_candidate, load_and_test_config, discard_config, hrej, habort]

/-- C6 witness: the amended rejection behaviour evaluated against the
concrete rejecting device. -/
theorem load_merge_reject_behavior_witness :
    rejDev.runResult
      (mergeTestCommands (sessionName "T1") (cleanLines "hostname foo")) =
      .error "bad command" ∧
    rejDev.runResult
      ["configure session " ++ sessionName "T1", "abort"] = .ok () ∧
    load_merge_candidate rejDev fs0 "T1" none (some "hostname foo")
        initialDriver =
      (some (.mergeConfigException "bad command"),
        { initialDriver with
            candidate_configuration := .pyList (cleanLines "hostname foo"),
            config_session := none },
        [.runCommands (mergeTestCommands (sessionName "T1")
          (cleanLines "hostname foo")),
         .runCommands ["configure session " ++ sessionName "T1", "abort"],
         .getConfig "text",
         .loadCandidateConfig none (some rejDev.runningConfig)]) :=
  ⟨rfl, rfl,
    load_merge_reject_behavior rejDev fs0 "T1" "hostname foo" "bad command"
      initialDriver rfl rfl⟩

/-- C7: `discard_config` sends the abort batch exactly when a session
identifier is present, clears the identifier, and in every case reads the
running configuration back as text and reloads the device-side candidate
from it. -/
theorem discard_config_behavior (dev : DeviceBehavior) (s : EOSDriver)
    (hok : ∀ cmds, dev.runResult cmds = .ok ()) :
    discard_config dev s =
      (none, { s with config_session := none },
        (match s.config_session with
         | some name => [DevCall.runCommands ["configure session " ++ name, "abort"]]
         | none => []) ++
          [.getConfig "text",
           .loadCandidateConfig none (some dev.runningConfig)]) := by
  cases s with
  | mk rep cand sess =>
    cases sess <;> simp [discard_config, hok]

/-- C7 witness: the discard behaviour evaluated on the concrete staged
merge state against an all-accepting device. -/
theorem discard_config_behavior_witness :
    (∀ cmds, okDev.runResult cmds = .ok ()) ∧
    discard_config okDev stagedMergeState =
      (none, { stagedMergeState with config_session := none },
        (match stagedMergeState.config_session with
         | some name => [DevCall.runCommands ["configure session " ++ name, "abort"]]
         | none => []) ++
          [.getConfig "text",
           .loadCandidateConfig none (some okDev.runningConfig)]) :=
  ⟨fun _ => rfl, discard_config_behavior okDev stagedMergeState (fun _ => rfl)⟩

/-- C8 counterexample: `rollback` on a merge-mode state succeeds and sends
the replay/persist/reload sequence, but the driver state afterwards is
unchanged — in particular `config_replace` is still `false`, so the mode
is not recorded as REPLACE. -/
theorem rollback_keeps_mode_cex :
    rollback okDev stagedMergeState =
      (none, stagedMergeState,
        [.runCommands ["configure replace flash:rollback-0"],
         .runCommands ["write memory"], .getConfig "text",
         .loadCandidateConfig none (some "hostname sw1")]) ∧
    (rollback okDev stagedMergeState).2.1.config_replace = false := by decide

/-- C8 amended: `rollback` sends, in order, the replace-from-snapshot
command, the persist command, and the read-back-plus-reload of the
device-side candidate; the driver-local state (mode flag, candidate list
and session identifier alike) is left exactly as it was. -/
theorem rollback_behavior (dev : DeviceBehavior) (s : EOSDriver)
    (hok : ∀ cmds, dev.runResult cmds = .ok ()) :
    rollback dev s =
      (none, s,
        [.runCommands ["configure replace flash:rollback-0"],
         .runCommands ["write memory"], .getConfig "text",
         .loadCandidateConfig none (some dev.runningConfig)]) := by
  simp [rollback, hok]

/-- C8 witness: the rollback behaviour evaluated on the concrete staged
merge state against an all-accepting device. -/
theorem rollback_behavior_witness :
    (∀ cmds, okDev.runResult cmds = .ok ()) ∧
    rollback okDev stagedMergeState =
      (none, stagedMergeState,
        [.runCommands ["configure replace flash:rollback-0"],
         .runCommands ["write memory"], .getConfig "text",
         .loadCandidateConfig none (some okDev.runningConfig)]) :=
  ⟨fun _ => rfl, rollback_behavior okDev stagedMergeState (fun _ => rfl)⟩

/-- C10: splitting a candidate at its first "end" line, both the merge
test-apply batch and the merge commit batch keep everything but that one
line; when the candidate holds further "end" lines (here at least one in
the tail), they remain in the transmitted body. -/
theorem stripFirstEnd_first_occurrence_behavior (name : String)
    (sess : Option String) (l1 l2 : List String)
    (h1 : "end" ∉ l1) (h2 : "end" ∈ l2) :
    mergeTestCommands name (l1 ++ "end" :: l2) =
      ("configure session " ++ name) :: ((l1 ++ l2) ++ ["end"]) ∧
    commitMergeCommands sess (l1 ++ "end" :: l2) =
      ("configure session " ++ formatS sess) ::
        "copy startup-config flash:rollback-0" ::
          ((l1 ++ l2) ++ ["commit"]) ∧
    "end" ∈ l1 ++ l2 := by
  refine ⟨?_, ?_, List.mem_append_right _ h2⟩
  · rw [mergeTestCommands, stripFirstEnd_split _ _ h1]
  · rw [commitMergeCommands_eq, stripFirstEnd_split _ _ h1]

/-- C10 witness: the first-occurrence stripping evaluated on the concrete
candidate ["interface Ethernet1", "end", "end"], which holds two "end"
lines. -/
theorem stripFirstEnd_first_occurrence_behavior_witness :
    "end" ∉ ["interface Ethernet1"] ∧ "end" ∈ ["end"] ∧
    (mergeTestCommands "n1" (["interface Ethernet1"] ++ "end" :: ["end"]) =
      ("configure session " ++ "n1") ::
        ((["interface Ethernet1"] ++ ["end"]) ++ ["end"]) ∧
      commitMergeCommands (some "s1") (["interface Ethernet1"] ++ "end" :: ["end"]) =
        ("configure session " ++ formatS (some "s1")) ::
          "copy startup-config flash:rollback-0" ::
            ((["interface Ethernet1"] ++ ["end"]) ++ ["commit"]) ∧
      "end" ∈ ["interface Ethernet1"] ++ ["end"]) :=
  ⟨by decide, by decide,
    stripFirstEnd_first_occurrence_behavior "n1" (some "s1")
      ["interface Ethernet1"] ["end"] (by decide) (by decide)⟩

end Napalm
